import Mathlib

set_option linter.unusedVariables false

/-!
Shallow embedding of the classification-and-response pipeline of
src/chatbot_backend/main.py: the emotion-to-stress mapper, the academic
stress keyword classifier, the risk detector, the overall status engine,
the technique recommender, the therapeutic reply composer, the bounded
session history update, and the two endpoint handlers (analysis and chat
message), together with theorems settling the specification claims.

Python strings are modelled as Lean String; the Python membership test
`word in text` (substring containment) is modelled by strIn, the method
s.startswith(p) by strStarts, s.lower() by strLower (per-character ASCII
lowering, which agrees with Python on all configured keywords and all
ASCII text), and s.strip() by pyStrip.  The external emotion-inference
model is outside the core and is passed in as an opaque function
argument; HTTP exceptions are modelled by the Except error monad.
-/

namespace ChatbotBackend

/-- Boolean test that the first character list is an initial segment of the
second, used to build substring containment and startswith. -/
def leadMatch : List Char → List Char → Bool
  | [], _ => true
  | _ :: _, [] => false
  | a :: as, b :: bs => a == b && leadMatch as bs

/-- Boolean substring containment of the character list needle in the
haystack, modelling the Python expression needle in haystack. -/
def subMatch (needle : List Char) : List Char → Bool
  | [] => needle.isEmpty
  | b :: bs => leadMatch needle (b :: bs) || subMatch needle bs

/-- Models the Python membership test needle in hay on strings. -/
def strIn (needle hay : String) : Bool :=
  subMatch needle.data hay.data

/-- Models the Python call s.startswith(p). -/
def strStarts (p s : String) : Bool :=
  leadMatch p.data s.data

/-- Models the Python generator test any(word in text for word in kws). -/
def anyIn (kws : List String) (text : String) : Bool :=
  kws.any (fun k => strIn k text)

/-- Models the Python call s.lower(), character by character. -/
def strLower (s : String) : String :=
  ⟨s.data.map Char.toLower⟩

/-- Models the Python call s.strip(): drop leading and trailing whitespace. -/
def pyStrip (s : String) : String :=
  ⟨((s.data.dropWhile Char.isWhitespace).reverse.dropWhile Char.isWhitespace).reverse⟩

/-- Embedding of emotion_to_stress from src/chatbot_backend/main.py. -/
def emotion_to_stress (emotion : String) : String :=
  if emotion ∈ ["fear", "sadness", "anger", "disgust"] then "high"
  else if emotion ∈ ["surprise"] then "medium"
  else "low"

/-- The high_keywords list of academic_stress_classifier. -/
def academic_high_keywords : List String :=
  ["overwhelmed", "can\x27t handle", "cannot handle", "suicidal", "hopeless",
   "panic", "breakdown", "giving up", "i\x27m done", "end it", "can\x27t go on"]

/-- The medium_keywords list of academic_stress_classifier. -/
def academic_medium_keywords : List String :=
  ["stressed", "pressure", "anxious", "worried", "tired", "frustrated",
   "fear", "scared", "nervous"]

/-- The burnout_keywords list of academic_stress_classifier. -/
def burnout_keywords : List String :=
  ["burnout", "burnt out", "exhausted", "drained", "no energy", "empty", "fatigued"]

/-- The academic_keywords list of academic_stress_classifier. -/
def academic_keywords : List String :=
  ["exams", "exam", "assignments", "assignment", "university", "deadlines",
   "studies", "lectures", "tests", "projects", "school"]

/-- Embedding of academic_stress_classifier from src/chatbot_backend/main.py. -/
def academic_stress_classifier (text emotion : String) : String :=
  let text_lower := strLower text
  if anyIn academic_high_keywords text_lower then "academic_stress_high"
  else if anyIn burnout_keywords text_lower then "burnout"
  else if anyIn academic_medium_keywords text_lower then "academic_stress_medium"
  else if anyIn academic_keywords text_lower then
    (if emotion ∈ ["fear", "sadness", "anger"] then "academic_stress_high"
     else if emotion = "surprise" then "academic_stress_medium"
     else "academic_stress_low")
  else if emotion ∈ ["fear", "sadness", "anger"] then "academic_stress_medium"
  else "academic_stress_low"

/-- The high_risk_keywords list of risk_detector. -/
def high_risk_keywords : List String :=
  ["suicide", "kill myself", "end my life", "end it all", "i want to die",
   "i don\x27t want to live", "no reason to live", "give up completely",
   "can\x27t go on", "i want to end everything"]

/-- The moderate_risk_keywords list of risk_detector. -/
def moderate_risk_keywords : List String :=
  ["hopeless", "worthless", "nothing matters", "tired of everything",
   "i don\x27t care anymore", "empty inside"]

/-- Embedding of risk_detector from src/chatbot_backend/main.py. -/
def risk_detector (text : String) : String :=
  let text_lower := strLower text
  if anyIn high_risk_keywords text_lower then "high_risk"
  else if anyIn moderate_risk_keywords text_lower then "moderate_risk"
  else "safe"

/-- Embedding of overall_status_engine from src/chatbot_backend/main.py.
The emotion argument is received but never consulted, exactly as in the
source. -/
def overall_status_engine (emotion stress academic_stress risk : String) : String :=
  if risk = "high_risk" then "critical"
  else if risk = "moderate_risk" then "high_stress"
  else if academic_stress ∈ ["academic_stress_high", "burnout"] then "high_stress"
  else if academic_stress = "academic_stress_medium" ∨ stress = "medium" then "moderate_stress"
  else if stress = "low" ∧ academic_stress = "academic_stress_low" then "low_stress"
  else "normal"

/-- Modelled from the spec, section 4.4: the six-rule priority cascade of
the StatusFusionEngine, first matching rule wins, written from the words
of the spec for comparison with overall_status_engine. -/
def fuse_spec_cascade (stress academic risk : String) : String :=
  if risk = "high_risk" then "critical"
  else if risk = "moderate_risk" then "high_stress"
  else if academic ∈ ["academic_stress_high", "burnout"] then "high_stress"
  else if academic = "academic_stress_medium" ∨ stress = "medium" then "moderate_stress"
  else if stress = "low" ∧ academic = "academic_stress_low" then "low_stress"
  else "normal"

/-- Embedding of generate_response from src/chatbot_backend/main.py. -/
def generate_response (overall_status emotion academic_stress risk : String) : String :=
  if overall_status = "critical" then
    "I’m really sorry that you\x27re feeling this way. You’re not alone, and your feelings are valid. This sounds extremely difficult, and it\x27s important to get immediate support. If you can, please consider reaching out to someone you trust or a mental health professional. If you are in immediate danger or feel you might harm yourself, please contact your local emergency number right away."
  else if overall_status = "high_stress" then
    "It sounds like you’re experiencing a lot of pressure right now. Thank you for sharing how you feel — it takes courage. Let’s take this one step at a time. Could you tell me what part feels hardest for you at the moment?"
  else if overall_status = "moderate_stress" then
    "I understand that things feel challenging. It’s okay to feel overwhelmed sometimes. You’re handling more than you realize. Would you like to talk about what has been stressing you the most?"
  else if overall_status = "low_stress" then
    "I hear you. It seems like you\x27re experiencing some stress, but you\x27re still managing things. I’m here to support you — what would you like to focus on?"
  else
    "Thank you for sharing. How can I support you today?"

/-- The conditionally appended technique groups of suggest_techniques, in
the order the source appends them. -/
def suggest_techniques_pool (emotion academic_stress : String) : List String :=
  (if emotion ∈ ["fear", "surprise"] then
    ["5-4-3-2-1 grounding exercise", "Box breathing (4-4-4-4)"] else []) ++
  (if emotion ∈ ["sadness"] then
    ["Self-compassion check-in: talk to yourself kindly",
     "Behavioral activation: small, doable action"] else []) ++
  (if emotion ∈ ["anger"] then
    ["4-7-8 breathing to reduce arousal",
     "Cognitive defusion: name the emotion, not the person"] else []) ++
  (if academic_stress = "burnout" then
    ["Micro-break: 5 minutes away from screens",
     "Energy audit: identify one drain and one battery"] else []) ++
  (if strStarts "academic_stress_" academic_stress then
    ["Task chunking: 25-minute focus + 5-minute rest",
     "Two-minute start: do the smallest possible step"] else [])

/-- Embedding of suggest_techniques from src/chatbot_backend/main.py:
the collected groups truncated to four entries, or the fixed fallback
when no group applied. -/
def suggest_techniques (emotion academic_stress : String) : List String :=
  let techniques := suggest_techniques_pool emotion academic_stress
  if techniques = [] then
    ["Mindful breathing (3 slow breaths)", "Name and note your feeling"]
  else techniques.take 4

/-- A conversation turn as stored by the session endpoints: a role and a
content string. -/
structure Turn where
  role : String
  content : String
deriving DecidableEq, Repr

/-- The payload returned by generate_therapeutic_reply. -/
structure TherapeuticReply where
  bot_message : String
  techniques : List String
deriving DecidableEq, Repr

/-- Embedding of generate_therapeutic_reply from src/chatbot_backend/main.py. -/
def generate_therapeutic_reply (user_text emotion stress academic_stress risk : String)
    (history : List Turn) : TherapeuticReply :=
  if risk = "high_risk" then
    { bot_message :=
        "I’m really sorry you’re feeling this way. Your safety matters. If you feel at risk of harming yourself, please contact your local emergency number now. You can also reach your country\x27s suicide prevention hotline or a trusted person nearby.",
      techniques :=
        ["Call local emergency services",
         "Contact someone you trust",
         "Seek immediate professional help"] }
  else
    let opening := "Thank you for sharing that. "
    let tone :=
      if stress = "high" ∨ academic_stress ∈ ["academic_stress_high", "burnout"] then
        "It sounds like a lot is on your plate right now. Let’s take this step by step. "
      else if stress = "medium" then
        "I hear that things feel challenging. You’re doing your best in a tough moment. "
      else
        "I’m here with you. Let’s focus on what would help most. "
    let techniques := suggest_techniques emotion academic_stress
    let technique_line :=
      "Would you like to try one of these now: " ++ String.intercalate ", " techniques ++ "?"
    let academic_hint :=
      if strStarts "academic_stress_" academic_stress ∨ academic_stress = "burnout" then
        " If this is about studies, we can pick one tiny task, set a 20–25 minute timer, and pause for 5 minutes after. I can help you plan it."
      else ""
    let prompt_followup :=
      " What feels hardest at this moment, or what would you like us to focus on together?"
    { bot_message := opening ++ tone ++ technique_line ++ academic_hint ++ prompt_followup,
      techniques := techniques }

/-- The Python slice l[-n:]: the suffix of the n most recent entries. -/
def takeLast (n : Nat) (l : List α) : List α :=
  l.drop (l.length - n)

/-- Modelled from the spec, section 4.7: the single-turn appendTurn history
update of the abstract SessionStore (append, then retain only the most
recent 20 turns).  The source applies the same truncation once per
two-turn exchange; the session theorems relate the two. -/
def sessionAppend1 (hist : List Turn) (t : Turn) : List Turn :=
  takeLast 20 (hist ++ [t])

/-- The session history update performed by chat_message: append the user
turn, then the assistant turn, then keep the slice history[-20:]. -/
def sessionAppendTwo (hist : List Turn) (userText botMsg : String) : List Turn :=
  takeLast 20 ((hist ++ [{ role := "user", content := userText }]) ++
    [{ role := "assistant", content := botMsg }])

/-- The error outcomes raised by the endpoint handlers (HTTPException with
status 400 or 404). -/
inductive ApiError where
  | validation : String → ApiError
  | notFound : String → ApiError
deriving DecidableEq, Repr

/-- The HTTP status code carried by each error kind in the source. -/
def ApiError.status : ApiError → Nat
  | .validation _ => 400
  | .notFound _ => 404

/-- The response model of the analyze endpoint. -/
structure AnalysisResult where
  emotion : String
  stress_level : String
  academic_stress_category : String
  risk_level : String
  overall_status : String
  bot_response : String
deriving DecidableEq, Repr

/-- The response model of the chat message endpoint. -/
structure ChatMessageResponse where
  bot_message : String
  emotion : String
  stress_level : String
  academic_stress_category : String
  risk_level : String
  overall_status : String
  techniques : List String
deriving DecidableEq, Repr

/-- Embedding of the analyze_text endpoint handler.  The external
inference model (tokenizer plus classifier producing an emotion label) is
passed in as the opaque function infer. -/
def analyze_text (infer : String → String) (textInput : String) :
    Except ApiError AnalysisResult :=
  let text := pyStrip textInput
  if text = "" then .error (.validation "Input text cannot be empty.")
  else
    let emotion := infer text
    let stress := emotion_to_stress emotion
    let academic_stress := academic_stress_classifier text emotion
    let risk := risk_detector text
    let overall := overall_status_engine emotion stress academic_stress risk
    let response := generate_response overall emotion academic_stress risk
    .ok { emotion := emotion, stress_level := stress,
          academic_stress_category := academic_stress, risk_level := risk,
          overall_status := overall, bot_response := response }

/-- The in-memory session store, a map from session id to turn history,
modelled as an association list. -/
def SessionStore : Type := List (String × List Turn)

/-- Assignment Sessions[session_id] = hist for a key already present. -/
def storeSet (session_id : String) (hist : List Turn) (s : SessionStore) : SessionStore :=
  s.map (fun p => if p.1 = session_id then (session_id, hist) else p)

/-- Lookup of a session id in the store. -/
def storeFind (session_id : String) (s : SessionStore) : Option (List Turn) :=
  s.lookup session_id

/-- Embedding of the chat_message endpoint handler.  On success it returns
the response payload together with the updated session store; every error
path leaves the store untouched. -/
def chat_message (infer : String → String) (sessions : SessionStore)
    (session_id textInput : String) :
    Except ApiError (ChatMessageResponse × SessionStore) :=
  let text := pyStrip textInput
  if text = "" then .error (.validation "Input text cannot be empty.")
  else
    match storeFind session_id sessions with
    | none => .error (.notFound "Session not found. Start a new chat.")
    | some hist =>
      let emotion := infer text
      let stress := emotion_to_stress emotion
      let academic_stress := academic_stress_classifier text emotion
      let risk := risk_detector text
      let overall := overall_status_engine emotion stress academic_stress risk
      let reply := generate_therapeutic_reply text emotion stress academic_stress risk
        (hist ++ [{ role := "user", content := text }])
      let newHist := sessionAppendTwo hist text reply.bot_message
      .ok ({ bot_message := reply.bot_message, emotion := emotion,
             stress_level := stress, academic_stress_category := academic_stress,
             risk_level := risk, overall_status := overall,
             techniques := reply.techniques },
           storeSet session_id newHist sessions)

/-- A concrete sequence of twenty-five distinct turns, used to witness the
session bound theorem. -/
def ts25 : List Turn :=
  [{ role := "user", content := "t1" },
   { role := "user", content := "t2" },
   { role := "user", content := "t3" },
   { role := "user", content := "t4" },
   { role := "user", content := "t5" },
   { role := "user", content := "t6" },
   { role := "user", content := "t7" },
   { role := "user", content := "t8" },
   { role := "user", content := "t9" },
   { role := "user", content := "t10" },
   { role := "user", content := "t11" },
   { role := "user", content := "t12" },
   { role := "user", content := "t13" },
   { role := "user", content := "t14" },
   { role := "user", content := "t15" },
   { role := "user", content := "t16" },
   { role := "user", content := "t17" },
   { role := "user", content := "t18" },
   { role := "user", content := "t19" },
   { role := "user", content := "t20" },
   { role := "user", content := "t21" },
   { role := "user", content := "t22" },
   { role := "user", content := "t23" },
   { role := "user", content := "t24" },
   { role := "user", content := "t25" }]


/-- Helper: truncating to the last n entries absorbs an earlier truncation
to the last n entries, so per-turn and per-exchange truncation agree. -/
theorem takeLast_absorb (n : Nat) (x c : List α) :
    takeLast n (takeLast n x ++ c) = takeLast n (x ++ c) := by
  show List.rtake (List.rtake x n ++ c) n = List.rtake (x ++ c) n
  simp only [List.rtake_eq_reverse_take_reverse, List.reverse_append,
    List.reverse_reverse, List.take_append_eq_append_take, List.take_take,
    List.length_reverse, List.length_take]
  congr 2
  rw [inf_eq_left.mpr (Nat.sub_le n c.length)]

/-- Helper: folding bounded single-turn appends over a turn sequence keeps
exactly the twenty most recent turns of everything appended so far. -/
theorem foldl_sessionAppend1 (ts : List Turn) (h : List Turn) :
    List.foldl sessionAppend1 (takeLast 20 h) ts = takeLast 20 (h ++ ts) := by
  induction ts generalizing h with
  | nil => simp
  | cons t ts ih =>
    simp only [List.foldl_cons]
    have h1 : sessionAppend1 (takeLast 20 h) t = takeLast 20 (h ++ [t]) :=
      takeLast_absorb 20 h [t]
    rw [h1, ih (h ++ [t])]
    simp

/-- Claim C1: overall_status_engine returns critical exactly when its risk
argument is high_risk, for every emotion, stress and academic input; and
for every text containing a configured high-risk phrase (after the
lowering the source applies), risk_detector returns high_risk.  The
detector takes no emotion input, so the result is independent of emotion
by construction. -/
theorem c1_overall_critical_iff_high_risk :
    (∀ emotion stress academic risk : String,
        overall_status_engine emotion stress academic risk = "critical" ↔ risk = "high_risk")
    ∧ (∀ text : String,
        anyIn high_risk_keywords (strLower text) = true →
        risk_detector text = "high_risk") := by
  constructor
  · intro e s a r
    constructor
    · intro h
      by_contra hne
      unfold overall_status_engine at h
      rw [if_neg hne] at h
      split_ifs at h <;> exact absurd h (by decide)
    · intro h
      simp [overall_status_engine, h]
  · intro text h
    simp [risk_detector, h]

/-- Witness for C1 on the text of spec scenario 2, which contains the
configured high-risk phrase about ending life. -/
theorem c1_overall_critical_iff_high_risk_witness :
    anyIn high_risk_keywords (strLower "I want to end my life") = true ∧
      risk_detector "I want to end my life" = "high_risk" :=
  ⟨by decide, c1_overall_critical_iff_high_risk.2 "I want to end my life" (by decide)⟩

/-- Claim C2: on every triple drawn from the declared enums (and any
emotion), overall_status_engine agrees with the six-rule priority cascade
of spec section 4.4, written independently as fuse_spec_cascade. -/
theorem c2_fusion_matches_spec_cascade :
    ∀ emotion stress academic risk : String,
      stress ∈ ["low", "medium", "high"] →
      academic ∈ ["academic_stress_low", "academic_stress_medium",
        "academic_stress_high", "burnout"] →
      risk ∈ ["safe", "moderate_risk", "high_risk"] →
      overall_status_engine emotion stress academic risk =
        fuse_spec_cascade stress academic risk := by
  intro e s a r hs ha hr
  rfl

/-- Witness for C2 at a concrete enum triple. -/
theorem c2_fusion_matches_spec_cascade_witness :
    ("medium" ∈ ["low", "medium", "high"]
      ∧ "academic_stress_low" ∈ ["academic_stress_low", "academic_stress_medium",
          "academic_stress_high", "burnout"]
      ∧ "safe" ∈ ["safe", "moderate_risk", "high_risk"])
    ∧ overall_status_engine "joy" "medium" "academic_stress_low" "safe" =
        fuse_spec_cascade "medium" "academic_stress_low" "safe" :=
  ⟨⟨by decide, by decide, by decide⟩,
    c2_fusion_matches_spec_cascade "joy" "medium" "academic_stress_low" "safe"
      (by decide) (by decide) (by decide)⟩

/-- Claim C3: with risk high_risk, generate_therapeutic_reply returns the
same payload whatever the text, emotion, stress, academic category and
history are, and its technique list is the fixed three-entry emergency
list; the recommender is never consulted on this path. -/
theorem c3_crisis_reply_fixed :
    ∀ (t1 e1 s1 a1 : String) (h1 : List Turn) (t2 e2 s2 a2 : String) (h2 : List Turn),
      generate_therapeutic_reply t1 e1 s1 a1 "high_risk" h1 =
        generate_therapeutic_reply t2 e2 s2 a2 "high_risk" h2
      ∧ (generate_therapeutic_reply t1 e1 s1 a1 "high_risk" h1).techniques =
          ["Call local emergency services", "Contact someone you trust",
           "Seek immediate professional help"] := by
  intro t1 e1 s1 a1 h1 t2 e2 s2 a2 h2
  exact ⟨rfl, rfl⟩

/-- Counterexample to C4 as stated: at emotion neutral and academic
category calm no recommendation rule matches, yet the fallback of
suggest_techniques has two entries, not one. -/
theorem c4_fallback_single_entry_cex :
    ("neutral" ∉ ["fear", "surprise", "sadness", "anger"] ∧
     "calm" ≠ "burnout" ∧
     strStarts "academic_stress_" "calm" = false) ∧
    (suggest_techniques "neutral" "calm").length = 2 ∧
    suggest_techniques "neutral" "calm" ≠ ["Mindful breathing (3 slow breaths)"] := by
  decide

/-- Claim C4 as amended: when no recommendation rule matches, the
recommender returns the fixed two-entry fallback list whose first entry is
the mindful-breathing technique. -/
theorem c4_fallback_two_entries :
    ∀ emotion academic_stress : String,
      emotion ∉ ["fear", "surprise", "sadness", "anger"] →
      academic_stress ≠ "burnout" →
      strStarts "academic_stress_" academic_stress = false →
      suggest_techniques emotion academic_stress =
        ["Mindful breathing (3 slow breaths)", "Name and note your feeling"] := by
  intro e a he hb hs
  simp at he
  obtain ⟨h1, h2, h3, h4⟩ := he
  simp [suggest_techniques, suggest_techniques_pool, h1, h2, h3, h4, hb, hs]

/-- Witness for the amended C4 at emotion neutral and category calm. -/
theorem c4_fallback_two_entries_witness :
    ("neutral" ∉ ["fear", "surprise", "sadness", "anger"]
      ∧ "calm" ≠ "burnout"
      ∧ strStarts "academic_stress_" "calm" = false)
    ∧ suggest_techniques "neutral" "calm" =
        ["Mindful breathing (3 slow breaths)", "Name and note your feeling"] :=
  ⟨⟨by decide, by decide, by decide⟩,
    c4_fallback_two_entries "neutral" "calm" (by decide) (by decide) (by decide)⟩

/-- Claim C5: the per-exchange session update stores exactly the last
twenty of the previous turns plus the two new ones (user then assistant,
order preserved), is bounded by twenty, equals two bounded single-turn
appends, is the update chat_message performs on success, and folding
twenty-five appended turns from an empty history leaves exactly the
twenty most recent in original relative order. -/
theorem c5_session_history_bounded :
    (∀ (hist : List Turn) (u b : String),
        sessionAppendTwo hist u b =
          takeLast 20 (hist ++ [{ role := "user", content := u },
            { role := "assistant", content := b }])
      ∧ (sessionAppendTwo hist u b).length ≤ 20
      ∧ sessionAppendTwo hist u b =
          sessionAppend1 (sessionAppend1 hist { role := "user", content := u })
            { role := "assistant", content := b })
    ∧ (∀ (infer : String → String) (sessions : SessionStore) (sid text : String)
        (hist : List Turn) (resp : ChatMessageResponse) (store2 : SessionStore),
        chat_message infer sessions sid text = .ok (resp, store2) →
        storeFind sid sessions = some hist →
        store2 = storeSet sid (sessionAppendTwo hist (pyStrip text) resp.bot_message) sessions)
    ∧ (∀ ts : List Turn, ts.length = 25 →
        List.foldl sessionAppend1 [] ts = ts.drop 5) := by
  refine ⟨?_, ?_, ?_⟩
  · intro hist u b
    refine ⟨by simp [sessionAppendTwo], ?_, ?_⟩
    · show (takeLast 20 _).length ≤ 20
      simp only [takeLast, List.length_drop]
      omega
    · unfold sessionAppendTwo sessionAppend1
      exact (takeLast_absorb 20 _ _).symm
  · intro infer sessions sid text hist resp store2 hok hfind
    unfold chat_message at hok
    by_cases ht : pyStrip text = ""
    · rw [if_pos ht] at hok
      exact absurd hok (by simp)
    · rw [if_neg ht, hfind] at hok
      simp only [Except.ok.injEq, Prod.mk.injEq] at hok
      obtain ⟨hresp, hstore⟩ := hok
      subst hstore
      rw [← hresp]
  · intro ts h25
    have h0 : takeLast 20 ([] : List Turn) = [] := rfl
    have hf := foldl_sessionAppend1 ts []
    rw [h0, List.nil_append] at hf
    rw [hf, takeLast, h25]

/-- Witness for C5: folding the twenty-five concrete turns of ts25 into an
empty session leaves exactly the most recent twenty, in order. -/
theorem c5_session_history_bounded_witness :
    ts25.length = 25 ∧ List.foldl sessionAppend1 [] ts25 = ts25.drop 5 :=
  ⟨by decide, c5_session_history_bounded.2.2 ts25 (by decide)⟩

/-- Claim C6: academic_stress_classifier evaluates its keyword rules in
the precedence high-severity, then burnout, then medium, then academic
context with the emotion sub-decision, then the emotion-only fallback,
first match winning on the lowered text, and is total over the four
categories; on the spec scenario text about being nervous before an exam
with emotion fear, the medium keyword wins over the academic-context rule
and the overall status is moderate_stress. -/
theorem c6_academic_precedence :
    (∀ text emotion : String,
        (anyIn academic_high_keywords (strLower text) = true →
          academic_stress_classifier text emotion = "academic_stress_high")
      ∧ (anyIn academic_high_keywords (strLower text) = false →
          anyIn burnout_keywords (strLower text) = true →
          academic_stress_classifier text emotion = "burnout")
      ∧ (anyIn academic_high_keywords (strLower text) = false →
          anyIn burnout_keywords (strLower text) = false →
          anyIn academic_medium_keywords (strLower text) = true →
          academic_stress_classifier text emotion = "academic_stress_medium")
      ∧ (anyIn academic_high_keywords (strLower text) = false →
          anyIn burnout_keywords (strLower text) = false →
          anyIn academic_medium_keywords (strLower text) = false →
          anyIn academic_keywords (strLower text) = true →
          academic_stress_classifier text emotion =
            (if emotion ∈ ["fear", "sadness", "anger"] then "academic_stress_high"
             else if emotion = "surprise" then "academic_stress_medium"
             else "academic_stress_low"))
      ∧ (anyIn academic_high_keywords (strLower text) = false →
          anyIn burnout_keywords (strLower text) = false →
          anyIn academic_medium_keywords (strLower text) = false →
          anyIn academic_keywords (strLower text) = false →
          academic_stress_classifier text emotion =
            (if emotion ∈ ["fear", "sadness", "anger"] then "academic_stress_medium"
             else "academic_stress_low"))
      ∧ academic_stress_classifier text emotion ∈
          ["academic_stress_low", "academic_stress_medium", "academic_stress_high", "burnout"])
    ∧ academic_stress_classifier "I\x27m a bit nervous about my exam tomorrow" "fear" =
        "academic_stress_medium"
    ∧ anyIn academic_medium_keywords
        (strLower "I\x27m a bit nervous about my exam tomorrow") = true
    ∧ anyIn academic_keywords
        (strLower "I\x27m a bit nervous about my exam tomorrow") = true
    ∧ overall_status_engine "fear" (emotion_to_stress "fear")
        (academic_stress_classifier "I\x27m a bit nervous about my exam tomorrow" "fear")
        (risk_detector "I\x27m a bit nervous about my exam tomorrow") = "moderate_stress" := by
  refine ⟨?_, by decide, by decide, by decide, by decide⟩
  intro text emotion
  refine ⟨?_, ?_, ?_, ?_, ?_, ?_⟩
  · intro h1
    simp [academic_stress_classifier, h1]
  · intro h1 h2
    simp [academic_stress_classifier, h1, h2]
  · intro h1 h2 h3
    simp [academic_stress_classifier, h1, h2, h3]
  · intro h1 h2 h3 h4
    simp [academic_stress_classifier, h1, h2, h3, h4]
  · intro h1 h2 h3 h4
    simp [academic_stress_classifier, h1, h2, h3, h4]
  · simp only [academic_stress_classifier]
    split_ifs <;> simp

/-- Witness for C6 on the exam-nervousness scenario text: the first two
rule groups do not match, the medium keyword does, and the classifier
returns the medium category. -/
theorem c6_academic_precedence_witness :
    (anyIn academic_high_keywords
        (strLower "I\x27m a bit nervous about my exam tomorrow") = false
      ∧ anyIn burnout_keywords
          (strLower "I\x27m a bit nervous about my exam tomorrow") = false
      ∧ anyIn academic_medium_keywords
          (strLower "I\x27m a bit nervous about my exam tomorrow") = true)
    ∧ academic_stress_classifier "I\x27m a bit nervous about my exam tomorrow" "fear" =
        "academic_stress_medium" :=
  ⟨⟨by decide, by decide, by decide⟩,
    (c6_academic_precedence.1 "I\x27m a bit nervous about my exam tomorrow" "fear").2.2.1
      (by decide) (by decide) (by decide)⟩

/-- Claim C7: the fused status is a pure total function of the three tier
inputs: for any fixed stress, academic and risk values, any two emotion
arguments give the same overall_status_engine result. -/
theorem c7_status_independent_of_emotion :
    ∀ (emotion1 emotion2 stress academic risk : String),
      overall_status_engine emotion1 stress academic risk =
        overall_status_engine emotion2 stress academic risk := by
  intro e1 e2 s a r
  rfl

/-- Claim C8: for every emotion and academic category string, the
recommended technique list has between one and four entries. -/
theorem c8_techniques_length_bounds :
    ∀ emotion academic_stress : String,
      1 ≤ (suggest_techniques emotion academic_stress).length ∧
      (suggest_techniques emotion academic_stress).length ≤ 4 := by
  intro e a
  unfold suggest_techniques
  by_cases h : suggest_techniques_pool e a = []
  · simp [h]
  · have hp : 0 < (suggest_techniques_pool e a).length := List.length_pos.mpr h
    simp [h, List.length_take]
    omega

/-- Claim C9: on empty or whitespace-only input text, both endpoint
handlers fail with the validation error carrying HTTP status 400, for
every inference function and every session store, so no classifier runs,
no inference runs, and no session state is produced. -/
theorem c9_empty_text_validation :
    (∀ (infer : String → String) (text : String), pyStrip text = "" →
        analyze_text infer text = .error (.validation "Input text cannot be empty."))
    ∧ (∀ (infer : String → String) (sessions : SessionStore) (session_id text : String),
        pyStrip text = "" →
        chat_message infer sessions session_id text =
          .error (.validation "Input text cannot be empty."))
    ∧ (ApiError.validation "Input text cannot be empty.").status = 400 := by
  refine ⟨?_, ?_, rfl⟩
  · intro infer text h
    simp [analyze_text, h]
  · intro infer sessions sid text h
    simp [chat_message, h]

/-- Witness for C9 on a whitespace-only input. -/
theorem c9_empty_text_validation_witness :
    pyStrip "   " = "" ∧
      analyze_text (fun _ => "neutral") "   " =
        .error (.validation "Input text cannot be empty.") ∧
      chat_message (fun _ => "neutral") [] "sid" "   " =
        .error (.validation "Input text cannot be empty.") :=
  ⟨by decide, c9_empty_text_validation.1 (fun _ => "neutral") "   " (by decide),
   c9_empty_text_validation.2.1 (fun _ => "neutral") [] "sid" "   " (by decide)⟩

/-- Claim C10: with stress high, academic category low and risk safe the
engine returns normal for every emotion, and that triple is reachable:
emotion disgust on keyword-free text maps to high stress while the
classifier falls through to the low academic category and the detector
to safe. -/
theorem c10_high_stress_alone_normal :
    (∀ emotion : String,
      overall_status_engine emotion "high" "academic_stress_low" "safe" = "normal")
    ∧ emotion_to_stress "disgust" = "high"
    ∧ academic_stress_classifier "hello there" "disgust" = "academic_stress_low"
    ∧ risk_detector "hello there" = "safe"
    ∧ overall_status_engine "disgust" (emotion_to_stress "disgust")
        (academic_stress_classifier "hello there" "disgust")
        (risk_detector "hello there") = "normal" :=
  ⟨fun e => rfl, by decide, by decide, by decide, by decide⟩

end ChatbotBackend
